import Mathlib

/-!
Verification development for the CareCircle caregiving-coordination backend.

The development shallowly embeds the three decision engines of the repository:

* the triage-protocol condition evaluator and state machine
  (`backend/shared/triage_protocol.py`),
* the multi-agent task-assignment scorer
  (`backend/functions/task-assignment/app.py`),
* the outcome-capture / follow-up generator
  (`backend/shared/outcome_capture.py`).

Python-level semantics (string splitting, `float()` coercion, `==`,
dictionaries) are modelled first, by structurally recursive functions so that
every concrete evaluation reduces in the kernel.  Numbers are modelled as
rationals: every numeric literal appearing in the embedded code is a small
decimal, on which Python float arithmetic is exact.
-/

namespace CareCircle

/-! ### Python string primitives

Structurally recursive models of the Python `str` operations the source uses:
`split`, `strip`, `endswith`, `replace` and `"_".join`.  They operate on the
character list of a `String`; fuel arguments are bounded by the input length,
which a step of the recursion always consumes, so the fuel never runs out on
the inputs supplied below. -/

/-- Model of Python `str.split(sep)` for a non-empty separator: scan the
character list left to right, cutting at each non-overlapping occurrence of
`sep`.  `fuel` starts at `length + 1` and a unit is consumed per character
examined, so the `fuel = 0` branch is never reached from `pySplit`. -/
def splitOnGo (sep : List Char) : ℕ → List Char → List Char → List (List Char)
  | 0, rest, acc => [acc.reverse ++ rest]
  | _ + 1, [], acc => [acc.reverse]
  | fuel + 1, c :: rest, acc =>
    if sep.isPrefixOf (c :: rest) then
      acc.reverse :: splitOnGo sep fuel ((c :: rest).drop sep.length) []
    else
      splitOnGo sep fuel rest (c :: acc)

/-- Model of Python `condition.split(sep)` (for the non-empty separators
`">="`, `"<="`, `"_"`, `" OR "`, `" AND "` used by the evaluator).  Like the
Python original it returns the whole string as a one-element list when the
separator does not occur. -/
def pySplit (s sep : String) : List String :=
  (splitOnGo sep.data (s.data.length + 1) s.data []).map String.mk

/-- Strip leading and trailing whitespace from a character list. -/
def trimChars (cs : List Char) : List Char :=
  ((cs.dropWhile Char.isWhitespace).reverse.dropWhile Char.isWhitespace).reverse

/-- Model of Python `str.strip()`. -/
def pyStrip (s : String) : String :=
  String.mk (trimChars s.data)

/-- Model of Python `str.endswith(suffixStr)`. -/
def pyEndsWith (s suffixStr : String) : Bool :=
  suffixStr.data.isSuffixOf s.data

/-- Fuel-driven worker for `pyReplace`; replaces every non-overlapping
occurrence of the non-empty pattern `pat` by `rep`. -/
def replaceGo (pat rep : List Char) : ℕ → List Char → List Char
  | 0, rest => rest
  | _ + 1, [] => []
  | fuel + 1, c :: rest =>
    if pat.isPrefixOf (c :: rest) then
      rep ++ replaceGo pat rep fuel ((c :: rest).drop pat.length)
    else
      c :: replaceGo pat rep fuel rest

/-- Model of Python `str.replace(pat, rep)` for a non-empty pattern. -/
def pyReplace (s pat rep : String) : String :=
  String.mk (replaceGo pat.data rep.data (s.data.length + 1) s.data)

/-- Model of Python `sep.join(parts)`. -/
def joinSep (sep : String) : List String → String
  | [] => ""
  | [x] => x
  | x :: xs => x ++ sep ++ joinSep sep xs

/-! ### Python numeric and value semantics -/

/-- All characters are decimal digits. -/
def allDigits (cs : List Char) : Bool :=
  cs.all Char.isDigit

/-- Numeric value of a digit list (most significant first). -/
def digitsToNat (cs : List Char) : ℕ :=
  cs.foldl (fun n c => 10 * n + (c.toNat - 48)) 0

/-- Split a character list at the first dot, keeping the remainder. -/
def splitDot : List Char → List Char × Option (List Char)
  | [] => ([], none)
  | c :: rest =>
    if c = '.' then ([], some rest)
    else
      let p := splitDot rest
      (c :: p.1, p.2)

/-- Model of Python `float(stringArgument)` on an already-stripped character
list: an optional sign followed by a decimal numeral with an optional
fractional part.  Every numeric string handled by the repository and its
specification (`"8"`, `"9"`, `"0.5"`, ...) is of this form; strings outside
this grammar are rejected, as Python rejects the non-numeric strings the
templates can produce. -/
def parseFloatChars? (cs : List Char) : Option ℚ :=
  let signed : Bool × List Char :=
    match cs with
    | '-' :: rest => (true, rest)
    | '+' :: rest => (false, rest)
    | _ => (false, cs)
  let sign : ℤ → ℤ := fun n => if signed.1 then -n else n
  match splitDot signed.2 with
  | (intPart, none) =>
    if intPart ≠ [] ∧ allDigits intPart then
      some (mkRat (sign (digitsToNat intPart)) 1)
    else none
  | (intPart, some fracPart) =>
    if (intPart ≠ [] ∨ fracPart ≠ []) ∧ allDigits intPart ∧ allDigits fracPart then
      let scale : ℕ := 10 ^ fracPart.length
      some (mkRat (sign (digitsToNat intPart * scale + digitsToNat fracPart : ℕ)) scale)
    else none

/-- Python exception kinds raised by the embedded code. -/
inductive PyErr where
  | valueError
  | typeError
deriving DecidableEq, Repr

instance {ε α : Type _} [DecidableEq ε] [DecidableEq α] : DecidableEq (Except ε α) := fun a b =>
  match a, b with
  | .ok x, .ok y => decidable_of_iff (x = y) (by simp)
  | .error x, .error y => decidable_of_iff (x = y) (by simp)
  | .ok _, .error _ => isFalse (by simp)
  | .error _, .ok _ => isFalse (by simp)

/-- Model of Python `float(s)` for a string: strips surrounding whitespace and
parses a decimal numeral, raising `ValueError` otherwise. -/
def pyFloatOfString (s : String) : Except PyErr ℚ :=
  match parseFloatChars? (trimChars s.data) with
  | some q => .ok q
  | none => .error .valueError

/-- A value stored in a triage-session response map: the protocol questions
produce booleans (yes/no), numbers (scales) and strings (choices and free
text). -/
inductive Value where
  | bool (b : Bool)
  | num (q : ℚ)
  | str (s : String)
deriving DecidableEq, Repr

/-- Numeric value of a Python boolean (`True == 1`, `False == 0`). -/
def boolToRat (b : Bool) : ℚ :=
  if b then 1 else 0

/-- Model of Python `==` on response values: numbers and booleans compare by
numeric value (`1 == True` in Python), strings compare by content, and the
numeric/string kinds never compare equal. -/
def pyEq : Value → Value → Bool
  | .bool a, .bool b => a == b
  | .bool a, .num q => boolToRat a == q
  | .num q, .bool b => q == boolToRat b
  | .num a, .num b => a == b
  | .str a, .str b => a == b
  | .bool _, .str _ => false
  | .str _, .bool _ => false
  | .num _, .str _ => false
  | .str _, .num _ => false

/-- Model of Python `float(value)`: booleans coerce to 0/1, numbers to
themselves, strings through the numeral parser (`ValueError` on failure). -/
def pyFloat : Value → Except PyErr ℚ
  | .bool b => .ok (boolToRat b)
  | .num q => .ok q
  | .str s => pyFloatOfString s

/-- Decimal digits of a natural number via fuel (the fuel `n` dominates the
number of divisions by 10). -/
def natDigitsGo : ℕ → ℕ → List Char → List Char
  | 0, _, acc => acc
  | _ + 1, 0, acc => acc
  | fuel + 1, n, acc => natDigitsGo fuel (n / 10) (Char.ofNat (48 + n % 10) :: acc)

/-- Decimal string of a natural number. -/
def natStr (n : ℕ) : String :=
  if n = 0 then "0" else String.mk (natDigitsGo n n [])

/-- Decimal string of an integer. -/
def intStr (i : ℤ) : String :=
  if i < 0 then "-" ++ natStr i.natAbs else natStr i.natAbs

/-- Model of Python `str(value)` for response values.  Integral numbers print
as Python integers do; a non-integral number (never produced by the templates,
whose numeric answers are scale readings) is shown as a fraction. -/
def pyStr : Value → String
  | .bool true => "True"
  | .bool false => "False"
  | .num q => if q.den = 1 then intStr q.num else intStr q.num ++ "/" ++ natStr q.den
  | .str s => s

/-- Model of `str(response)` where the response may be Python `None`
(a missing key): `str(None)` is `"None"`. -/
def pyStrOfOption : Option Value → String
  | none => "None"
  | some v => pyStr v

/-- A triage-session response map (Python dict from question id to value). -/
abbrev Responses := List (String × Value)

/-- Model of `self.responses.get(questionId)`. -/
def getResponse (responses : Responses) (key : String) : Option Value :=
  List.lookup key responses

/-! ### Condition Evaluator (`triage_protocol.py`, `_evaluate_single_condition`
and `_evaluate_condition`) -/

/-- Embeds the exact-match tail of `_evaluate_single_condition`
(`triage_protocol.py` lines 830-851): split the condition on `"_"`, require at
least three pieces, rebuild the question id from all but the last piece, and
dispatch on the final piece (`"yes"`, `"no"`, a suffix ending in `"plus"`, or
literal string comparison).  The `_plus` branch wraps its `float(...)` calls
in `try/except (ValueError, TypeError)` and resolves failures to `False`. -/
def evalExactMatch (responses : Responses) (condition : String) : Except PyErr Bool :=
  let parts := pySplit condition "_"
  if 3 ≤ parts.length then
    let question_id := joinSep "_" parts.dropLast
    let expected_value := parts.getLast?.getD ""
    let response := getResponse responses question_id
    if expected_value = "yes" then
      .ok (match response with
           | some v => pyEq v (.bool true) || pyEq v (.str "yes") || pyEq v (.str "Yes")
           | none => false)
    else if expected_value = "no" then
      .ok (match response with
           | some v => pyEq v (.bool false) || pyEq v (.str "no") || pyEq v (.str "No")
           | none => false)
    else if pyEndsWith expected_value "plus" then
      let threshold := pyReplace expected_value "_plus" ""
      .ok (match response with
           | none => false
           | some v =>
             match pyFloat v, pyFloatOfString threshold with
             | .ok x, .ok t => decide (t ≤ x)
             | _, _ => false)
    else
      .ok (pyStrOfOption response == expected_value)
  else
    .ok false

/-- Embeds the `">="` / `"<="` comparison branches and the underscore
exact-match dispatch of `_evaluate_single_condition`
(`triage_protocol.py` lines 813-851), keeping the source's order of checks.
`Except` models Python exceptions: the comparison branches call `float(...)`
unguarded, so a coercion failure propagates as `ValueError`; the `_plus`
branch handled by `evalExactMatch` catches its own coercion failures.
A split producing three or more pieces models the `ValueError` that the
two-name tuple unpacking `question_id, value = condition.split(">=")` would
raise. -/
def evalSingleCondition (responses : Responses) (condition : String) : Except PyErr Bool :=
  match pySplit condition ">=" with
  | [qRaw, vRaw] =>
    let question_id := pyStrip qRaw
    let value := pyStrip vRaw
    match getResponse responses question_id with
    | none => .ok false
    | some resp =>
      match pyFloat resp with
      | .error e => .error e
      | .ok x =>
        match pyFloatOfString value with
        | .error e => .error e
        | .ok threshold => .ok (decide (threshold ≤ x))
  | [_] =>
    match pySplit condition "<=" with
    | [qRaw, vRaw] =>
      let question_id := pyStrip qRaw
      let value := pyStrip vRaw
      match getResponse responses question_id with
      | none => .ok false
      | some resp =>
        match pyFloat resp with
        | .error e => .error e
        | .ok x =>
          match pyFloatOfString value with
          | .error e => .error e
          | .ok threshold => .ok (decide (x ≤ threshold))
    | [_] => evalExactMatch responses condition
    | _ => .error .valueError
  | _ => .error .valueError

/-- Short-circuiting `any(...)` over `_evaluate_single_condition` applied to
stripped pieces, as in the `" OR "` branch of `_evaluate_condition`: Python's
`any` stops at the first `True`, and an exception raised by an earlier piece
propagates. -/
def anyEvalSingle (responses : Responses) : List String → Except PyErr Bool
  | [] => .ok false
  | c :: rest =>
    match evalSingleCondition responses (pyStrip c) with
    | .error e => .error e
    | .ok true => .ok true
    | .ok false => anyEvalSingle responses rest

/-- Short-circuiting `all(...)` over `_evaluate_single_condition` applied to
stripped pieces, as in the `" AND "` branch of `_evaluate_condition`. -/
def allEvalSingle (responses : Responses) : List String → Except PyErr Bool
  | [] => .ok true
  | c :: rest =>
    match evalSingleCondition responses (pyStrip c) with
    | .error e => .error e
    | .ok false => .ok false
    | .ok true => allEvalSingle responses rest

/-- Embeds `_evaluate_condition` (`triage_protocol.py` lines 795-811):
`"DEFAULT"` is always true, then an `" OR "` split is tried before an
`" AND "` split, and otherwise the single-condition evaluator runs. -/
def evalCondition (responses : Responses) (condition : String) : Except PyErr Bool :=
  if condition = "DEFAULT" then .ok true
  else
    match pySplit condition " OR " with
    | [_] =>
      match pySplit condition " AND " with
      | [_] => evalSingleCondition responses condition
      | andParts => allEvalSingle responses andParts
    | orParts => anyEvalSingle responses orParts

/-! ### Triage data model (`triage_protocol.py` lines 21-81) -/

/-- `ProtocolType` enum. -/
inductive ProtocolType where
  | fall
  | injury
  | chest_pain
  | confusion
deriving DecidableEq, Repr

/-- The string value of a `ProtocolType` enum member. -/
def ProtocolType.value : ProtocolType → String
  | .fall => "fall"
  | .injury => "injury"
  | .chest_pain => "chest_pain"
  | .confusion => "confusion"

/-- `QuestionType` enum. -/
inductive QuestionType where
  | yes_no
  | scale
  | multiple_choice
  | text
deriving DecidableEq, Repr

/-- `TriageQuestion` dataclass. -/
structure TriageQuestion where
  id : String
  text : String
  type : QuestionType
  required : Bool
  critical_flag : Bool := false
  options : Option (List String) := none
deriving DecidableEq, Repr

/-- The step a transition targets: an integer step number, or the terminal
strings `"emergency"` / `"complete"` (the `Union[int, str]` of the source). -/
inductive NextStep where
  | step (n : ℕ)
  | emergency
  | complete
deriving DecidableEq, Repr

/-- `StepTransition` dataclass. -/
structure StepTransition where
  condition : String
  next_step : NextStep
deriving DecidableEq, Repr

/-- `TriageStep` dataclass. -/
structure TriageStep where
  step_number : ℕ
  title : String
  questions : List TriageQuestion
  critical_flags : List String
  next_step_logic : List StepTransition
deriving DecidableEq, Repr

/-- `TriageProtocolTemplate` dataclass. -/
structure TriageProtocolTemplate where
  protocol_type : ProtocolType
  steps : List TriageStep
deriving DecidableEq, Repr

/-! ### Protocol templates (`triage_protocol.py` lines 87-630) -/

/-- Embeds `create_fall_protocol`. -/
def create_fall_protocol : TriageProtocolTemplate where
  protocol_type := .fall
  steps := [
    { step_number := 1
      title := "Immediate Safety Check"
      questions := [
        { id := "consciousness"
          text := "Is the elder conscious and breathing normally?"
          type := .yes_no, required := true, critical_flag := true },
        { id := "severe_injury"
          text := "Is there severe bleeding, head injury, or inability to move?"
          type := .yes_no, required := true, critical_flag := true },
        { id := "pain_level_initial"
          text := "On a scale of 1-10, how severe is the pain?"
          type := .scale, required := true, critical_flag := false }]
      critical_flags := ["consciousness_no", "severe_injury_yes", "pain_level_initial_8_plus"]
      next_step_logic := [
        { condition := "consciousness_no OR severe_injury_yes OR pain_level_initial >= 8"
          next_step := .emergency },
        { condition := "consciousness_yes AND severe_injury_no AND pain_level_initial < 8"
          next_step := .step 2 }] },
    { step_number := 2
      title := "Rapid Assessment"
      questions := [
        { id := "pain_location"
          text := "Where is the pain located?"
          type := .multiple_choice
          options := some ["Head/Neck", "Back/Spine", "Hip/Pelvis", "Arm/Shoulder", "Leg/Knee", "Other"]
          required := true },
        { id := "mobility_status"
          text := "Can the elder move without assistance?"
          type := .yes_no, required := true },
        { id := "current_medications"
          text := "Is the elder taking blood thinners or other medications?"
          type := .yes_no, required := true },
        { id := "head_injury_check"
          text := "Did the elder hit their head during the fall?"
          type := .yes_no, required := true, critical_flag := true },
        { id := "confusion_check"
          text := "Is the elder confused or disoriented?"
          type := .yes_no, required := true, critical_flag := true }]
      critical_flags := ["head_injury_check_yes", "confusion_check_yes"]
      next_step_logic := [
        { condition := "head_injury_check_yes OR confusion_check_yes", next_step := .emergency },
        { condition := "mobility_status_no", next_step := .emergency },
        { condition := "DEFAULT", next_step := .step 3 }] },
    { step_number := 3
      title := "Action Plan Generation"
      questions := [
        { id := "action_preference"
          text := "Based on the assessment, what action would you prefer?"
          type := .multiple_choice
          options := some ["Call 911", "Go to Urgent Care", "Call Nurse Line", "Monitor at Home"]
          required := true }]
      critical_flags := []
      next_step_logic := [{ condition := "DEFAULT", next_step := .step 4 }] },
    { step_number := 4
      title := "Outcome Capture"
      questions := [
        { id := "action_taken"
          text := "What action was taken?"
          type := .text, required := true },
        { id := "emergency_called"
          text := "Were emergency services called?"
          type := .yes_no, required := true },
        { id := "outcome_notes"
          text := "Additional notes about the outcome:"
          type := .text, required := false }]
      critical_flags := []
      next_step_logic := [{ condition := "DEFAULT", next_step := .complete }] }]

/-- Embeds `create_injury_protocol`. -/
def create_injury_protocol : TriageProtocolTemplate where
  protocol_type := .injury
  steps := [
    { step_number := 1
      title := "Immediate Safety Check"
      questions := [
        { id := "consciousness"
          text := "Is the elder conscious and alert?"
          type := .yes_no, required := true, critical_flag := true },
        { id := "bleeding_severity"
          text := "Is there active bleeding?"
          type := .multiple_choice
          options := some ["No bleeding", "Minor bleeding", "Moderate bleeding", "Severe bleeding"]
          required := true, critical_flag := true },
        { id := "breathing_status"
          text := "Is breathing normal and unlabored?"
          type := .yes_no, required := true, critical_flag := true }]
      critical_flags := ["consciousness_no", "bleeding_severity_severe", "breathing_status_no"]
      next_step_logic := [
        { condition := "consciousness_no OR bleeding_severity_severe OR breathing_status_no"
          next_step := .emergency },
        { condition := "DEFAULT", next_step := .step 2 }] },
    { step_number := 2
      title := "Rapid Assessment"
      questions := [
        { id := "injury_location"
          text := "Where is the injury located?"
          type := .multiple_choice
          options := some ["Head/Face", "Neck", "Chest", "Abdomen", "Arms", "Legs", "Back"]
          required := true },
        { id := "pain_scale"
          text := "Pain level (0-10 scale):"
          type := .scale, required := true },
        { id := "mobility_affected"
          text := "Is mobility affected by the injury?"
          type := .yes_no, required := true },
        { id := "swelling_present"
          text := "Is there visible swelling or deformity?"
          type := .yes_no, required := true }]
      critical_flags := ["pain_scale_8_plus"]
      next_step_logic := [
        { condition := "pain_scale >= 8", next_step := .emergency },
        { condition := "DEFAULT", next_step := .step 3 }] },
    { step_number := 3
      title := "Action Plan Generation"
      questions := [
        { id := "recommended_action"
          text := "Recommended next step:"
          type := .multiple_choice
          options := some ["Emergency Room", "Urgent Care", "Primary Care", "Home Care"]
          required := true }]
      critical_flags := []
      next_step_logic := [{ condition := "DEFAULT", next_step := .step 4 }] },
    { step_number := 4
      title := "Outcome Capture"
      questions := [
        { id := "action_taken"
          text := "Action taken:"
          type := .text, required := true },
        { id := "emergency_called"
          text := "Were emergency services contacted?"
          type := .yes_no, required := true },
        { id := "follow_up_needed"
          text := "Is follow-up care needed?"
          type := .yes_no, required := true }]
      critical_flags := []
      next_step_logic := [{ condition := "DEFAULT", next_step := .complete }] }]

/-- Embeds `create_chest_pain_protocol`. -/
def create_chest_pain_protocol : TriageProtocolTemplate where
  protocol_type := .chest_pain
  steps := [
    { step_number := 1
      title := "Immediate Safety Check"
      questions := [
        { id := "consciousness"
          text := "Is the elder conscious and responsive?"
          type := .yes_no, required := true, critical_flag := true },
        { id := "chest_pain_severity"
          text := "How severe is the chest pain (0-10)?"
          type := .scale, required := true, critical_flag := true },
        { id := "breathing_difficulty"
          text := "Is there difficulty breathing or shortness of breath?"
          type := .yes_no, required := true, critical_flag := true },
        { id := "sweating_nausea"
          text := "Is there sweating, nausea, or dizziness?"
          type := .yes_no, required := true, critical_flag := true }]
      critical_flags := ["consciousness_no", "chest_pain_severity_7_plus", "breathing_difficulty_yes", "sweating_nausea_yes"]
      next_step_logic := [
        { condition := "consciousness_no OR chest_pain_severity >= 7 OR breathing_difficulty_yes OR sweating_nausea_yes"
          next_step := .emergency },
        { condition := "DEFAULT", next_step := .step 2 }] },
    { step_number := 2
      title := "Rapid Assessment"
      questions := [
        { id := "pain_duration"
          text := "How long has the chest pain been present?"
          type := .multiple_choice
          options := some ["Less than 5 minutes", "5-15 minutes", "15-30 minutes", "More than 30 minutes"]
          required := true },
        { id := "pain_radiation"
          text := "Does the pain radiate to arm, jaw, or back?"
          type := .yes_no, required := true, critical_flag := true },
        { id := "cardiac_history"
          text := "Does the elder have a history of heart problems?"
          type := .yes_no, required := true },
        { id := "current_medications"
          text := "Is the elder taking heart medications?"
          type := .yes_no, required := true }]
      critical_flags := ["pain_radiation_yes"]
      next_step_logic := [
        { condition := "pain_radiation_yes OR pain_duration_more_than_30", next_step := .emergency },
        { condition := "DEFAULT", next_step := .step 3 }] },
    { step_number := 3
      title := "Action Plan Generation"
      questions := [
        { id := "immediate_action"
          text := "Immediate action required:"
          type := .multiple_choice
          options := some ["Call 911 Immediately", "Go to Emergency Room", "Call Cardiologist", "Monitor Closely"]
          required := true }]
      critical_flags := []
      next_step_logic := [{ condition := "DEFAULT", next_step := .step 4 }] },
    { step_number := 4
      title := "Outcome Capture"
      questions := [
        { id := "action_taken"
          text := "Action taken:"
          type := .text, required := true },
        { id := "emergency_called"
          text := "Were emergency services called?"
          type := .yes_no, required := true },
        { id := "symptoms_resolved"
          text := "Have symptoms improved or resolved?"
          type := .yes_no, required := true }]
      critical_flags := []
      next_step_logic := [{ condition := "DEFAULT", next_step := .complete }] }]

/-- Embeds `create_confusion_protocol`. -/
def create_confusion_protocol : TriageProtocolTemplate where
  protocol_type := .confusion
  steps := [
    { step_number := 1
      title := "Immediate Safety Check"
      questions := [
        { id := "responsiveness"
          text := "Is the elder responsive to voice and touch?"
          type := .yes_no, required := true, critical_flag := true },
        { id := "orientation_check"
          text := "Does the elder know their name, location, and date?"
          type := .multiple_choice
          options := some ["Knows all three", "Knows two", "Knows one", "Knows none"]
          required := true, critical_flag := true },
        { id := "physical_symptoms"
          text := "Are there any physical symptoms (fever, weakness, difficulty speaking)?"
          type := .yes_no, required := true, critical_flag := true }]
      critical_flags := ["responsiveness_no", "orientation_check_knows_none", "physical_symptoms_yes"]
      next_step_logic := [
        { condition := "responsiveness_no OR orientation_check_knows_none OR physical_symptoms_yes"
          next_step := .emergency },
        { condition := "DEFAULT", next_step := .step 2 }] },
    { step_number := 2
      title := "Rapid Assessment"
      questions := [
        { id := "confusion_onset"
          text := "When did the confusion start?"
          type := .multiple_choice
          options := some ["Suddenly (minutes)", "Gradually (hours)", "Over days", "Chronic/ongoing"]
          required := true },
        { id := "medication_changes"
          text := "Have there been recent medication changes?"
          type := .yes_no, required := true },
        { id := "recent_illness"
          text := "Has the elder been ill recently (UTI, infection, etc.)?"
          type := .yes_no, required := true },
        { id := "safety_concerns"
          text := "Are there immediate safety concerns (wandering, agitation)?"
          type := .yes_no, required := true, critical_flag := true }]
      critical_flags := ["safety_concerns_yes"]
      next_step_logic := [
        { condition := "safety_concerns_yes OR confusion_onset_suddenly", next_step := .emergency },
        { condition := "DEFAULT", next_step := .step 3 }] },
    { step_number := 3
      title := "Action Plan Generation"
      questions := [
        { id := "recommended_care"
          text := "Recommended level of care:"
          type := .multiple_choice
          options := some ["Emergency Room", "Urgent Care", "Primary Care Same Day", "Schedule Appointment"]
          required := true }]
      critical_flags := []
      next_step_logic := [{ condition := "DEFAULT", next_step := .step 4 }] },
    { step_number := 4
      title := "Outcome Capture"
      questions := [
        { id := "action_taken"
          text := "Action taken:"
          type := .text, required := true },
        { id := "emergency_called"
          text := "Were emergency services called?"
          type := .yes_no, required := true },
        { id := "safety_measures"
          text := "What safety measures were implemented?"
          type := .text, required := false }]
      critical_flags := []
      next_step_logic := [{ condition := "DEFAULT", next_step := .complete }] }]

/-- The `PROTOCOL_TEMPLATES` registry. -/
def PROTOCOL_TEMPLATES : ProtocolType → TriageProtocolTemplate
  | .fall => create_fall_protocol
  | .injury => create_injury_protocol
  | .chest_pain => create_chest_pain_protocol
  | .confusion => create_confusion_protocol

/-! ### Triage protocol state machine (`TriageProtocolStateMachine`)

The mutable instance state of the Python class is made explicit as a
`TriageSession` record; methods that mutate `self` return the updated record.
The `datetime.utcnow()` timestamps are modelled as abstract instants (`ℕ`)
supplied by the caller, since the engines never inspect their contents. -/

/-- The instance state set up by `TriageProtocolStateMachine.__init__`:
`current_step_number` starts at 1 and `responses` empty; `template` is always
`PROTOCOL_TEMPLATES[protocol_type]()` and is recovered from `protocol_type`
below rather than stored. -/
structure TriageSession where
  alert_id : String
  protocol_type : ProtocolType
  current_step_number : ℕ
  responses : Responses
  created_at : ℕ
  updated_at : ℕ
deriving DecidableEq, Repr

/-- The template governing a session (`self.template`). -/
def TriageSession.template (s : TriageSession) : TriageProtocolTemplate :=
  PROTOCOL_TEMPLATES s.protocol_type

/-- Embeds `_find_step_by_number`: first step of the template with the given
step number, if any. -/
def find_step_by_number (t : TriageProtocolTemplate) (step_number : ℕ) : Option TriageStep :=
  t.steps.find? (fun step => step.step_number == step_number)

/-- Embeds `get_current_step`: the step record for `current_step_number`, or
the `ValueError` that `raise ValueError(...)` produces when the step is
missing.  (The Python returns a field-by-field dict rendering of the step;
the step record itself carries the same data.) -/
def get_current_step (s : TriageSession) : Except PyErr TriageStep :=
  match find_step_by_number s.template s.current_step_number with
  | none => .error .valueError
  | some current_step => .ok current_step

/-- Embeds `record_response`: store/overwrite the value under the question id
and refresh `updated_at`. -/
def record_response (s : TriageSession) (question_id : String) (response : Value) (now : ℕ) :
    TriageSession :=
  { s with
    responses := (question_id, response) :: s.responses.filter (fun p => p.1 != question_id)
    updated_at := now }

/-- Short-circuiting loop of `has_critical_flags`: evaluate each flag with
`_evaluate_condition`, returning at the first flag that fires; an exception
raised by an evaluation propagates. -/
def anyCondition (responses : Responses) : List String → Except PyErr Bool
  | [] => .ok false
  | flag :: rest =>
    match evalCondition responses flag with
    | .error e => .error e
    | .ok true => .ok true
    | .ok false => anyCondition responses rest

/-- Embeds `has_critical_flags`: false when the current step is missing,
otherwise true iff some critical flag of the current step evaluates true. -/
def has_critical_flags (s : TriageSession) : Except PyErr Bool :=
  match find_step_by_number s.template s.current_step_number with
  | none => .ok false
  | some current_step => anyCondition s.responses current_step.critical_flags

/-- First transition of the list whose condition evaluates true, in declared
order; an exception raised by an evaluation propagates. -/
def firstTransition (responses : Responses) : List StepTransition → Except PyErr (Option NextStep)
  | [] => .ok none
  | t :: rest =>
    match evalCondition responses t.condition with
    | .error e => .error e
    | .ok true => .ok (some t.next_step)
    | .ok false => firstTransition responses rest

/-- Embeds `get_next_step`: `"complete"` when the current step is missing;
otherwise the target of the first transition whose condition holds; otherwise
the next sequential step number when the template defines it, else
`"complete"`. -/
def get_next_step (s : TriageSession) : Except PyErr NextStep :=
  match find_step_by_number s.template s.current_step_number with
  | none => .ok .complete
  | some current_step =>
    match firstTransition s.responses current_step.next_step_logic with
    | .error e => .error e
    | .ok (some next_step) => .ok next_step
    | .ok none =>
      if (find_step_by_number s.template (s.current_step_number + 1)).isSome then
        .ok (.step (s.current_step_number + 1))
      else
        .ok .complete

/-- Result of `proceed_to_next_step`: either one of the terminal strings
`"emergency"` / `"complete"`, or the definition of the newly current step. -/
inductive ProceedResult where
  | terminal (s : String)
  | stepDef (st : TriageStep)
deriving DecidableEq, Repr

/-- Embeds `proceed_to_next_step`: terminal results are returned unchanged
(without touching the session); an integer target updates
`current_step_number` and `updated_at` and returns the new step definition.
(The trailing `return "complete"` of the Python is unreachable: the typed
`next_step` is always an int, `"emergency"` or `"complete"`.) -/
def proceed_to_next_step (s : TriageSession) (now : ℕ) :
    Except PyErr (ProceedResult × TriageSession) :=
  match get_next_step s with
  | .error e => .error e
  | .ok .emergency => .ok (.terminal "emergency", s)
  | .ok .complete => .ok (.terminal "complete", s)
  | .ok (.step n) =>
    let s' : TriageSession := { s with current_step_number := n, updated_at := now }
    match get_current_step s' with
    | .error e => .error e
    | .ok st => .ok (.stepDef st, s')

/-! ### Care-task assignment scorer (`task-assignment/app.py` lines 41-187)

External collaborators are passed explicitly: `pyHash` stands for Python's
builtin `hash` on strings (an arbitrary integer-valued function), and
`activeTaskCount` stands for the DynamoDB query of `calculate_workload_score`
(`.error` modelling a query exception, handled by the `except` branch). -/

/-- A task, as read out of the event by `multi_agent_scoring`
(`required_skills`, `urgency`, `elder_zipcode` with their `.get` defaults
already applied). -/
structure Task where
  required_skills : List String
  urgency : String
  elder_zipcode : String

/-- A family-member record, with the fields `multi_agent_scoring` reads
(`member_id`, `zipcode`, `skills`, `availability`, defaults applied). -/
structure Member where
  member_id : String
  zipcode : String
  skills : List String
  availability : String
deriving DecidableEq, Repr

/-- Embeds `calculate_proximity_score`: the demo distance estimate
`(abs(hash(member_zip + elder_zip)) % 100) / 10.0` bucketed into
100/80/60/40/20.  String concatenation and hashing never raise in Python, so
the `except: return 50.0` branch is unreachable for string inputs and has no
counterpart here. -/
def calculate_proximity_score (pyHash : String → ℤ) (member_zip elder_zip : String) : ℚ :=
  let hash_val : ℕ := (pyHash (member_zip ++ elder_zip)).natAbs
  let distance : ℚ := mkRat (hash_val % 100) 10
  if distance < 1 then 100.0
  else if distance < 5 then 80.0
  else if distance < 10 then 60.0
  else if distance < 25 then 40.0
  else 20.0

/-- Embeds `calculate_skill_match_score`: 50 when no skills are required, 20
when the member lists none, else `100 * matches / len(required)` where a
required skill matches when the member's list contains it. -/
def calculate_skill_match_score (required_skills member_skills : List String) : ℚ :=
  if required_skills.isEmpty then 50.0
  else if member_skills.isEmpty then 20.0
  else
    let matchCount : ℕ := required_skills.countP (fun skill => member_skills.contains skill)
    (mkRat matchCount required_skills.length) * 100

/-- Embeds `calculate_availability_score`: the dict of urgency-dependent
scores with default 50.0 for an unknown availability value. -/
def calculate_availability_score (availability urgency : String) : ℚ :=
  if availability = "flexible" then 100.0
  else if availability = "weekends" then (if urgency ≠ "urgent" then 70.0 else 30.0)
  else if availability = "limited" then (if urgency = "low" then 50.0 else 20.0)
  else 50.0

/-- Embeds `calculate_workload_score`: bucket the member's count of
pending/in-progress tasks (obtained from the `activeTaskCount` collaborator);
a query exception resolves to the neutral 50.0. -/
def calculate_workload_score (activeTaskCount : String → Except Unit ℕ) (member_id : String) : ℚ :=
  match activeTaskCount member_id with
  | .error _ => 50.0
  | .ok active_tasks =>
    if active_tasks = 0 then 100.0
    else if active_tasks = 1 then 80.0
    else if active_tasks = 2 then 60.0
    else if active_tasks = 3 then 40.0
    else 20.0

/-- The per-agent scores of one candidate plus the weighted composite, as
assembled in the `scored_members.append` of `multi_agent_scoring`. -/
structure Scores where
  proximity : ℚ
  skill : ℚ
  availability : ℚ
  workload : ℚ
  composite : ℚ
deriving DecidableEq, Repr

/-- One element of the `scored_members` list. -/
structure ScoredMember where
  member : Member
  scores : Scores
deriving DecidableEq, Repr

/-- The body of the `for member in members` loop of `multi_agent_scoring`:
compute the four agent scores and the weighted composite
(weights 0.30 / 0.30 / 0.20 / 0.20). -/
def scoreMember (pyHash : String → ℤ) (activeTaskCount : String → Except Unit ℕ)
    (task : Task) (member : Member) : ScoredMember :=
  let proximity_score := calculate_proximity_score pyHash member.zipcode task.elder_zipcode
  let skill_score := calculate_skill_match_score task.required_skills member.skills
  let availability_score := calculate_availability_score member.availability task.urgency
  let workload_score := calculate_workload_score activeTaskCount member.member_id
  let composite_score :=
    proximity_score * 0.30 + skill_score * 0.30 + availability_score * 0.20 + workload_score * 0.20
  { member := member
    scores := { proximity := proximity_score, skill := skill_score
                availability := availability_score, workload := workload_score
                composite := composite_score } }

/-- Embeds `multi_agent_scoring`: score every member, then
`scored_members.sort(key=composite, reverse=True)` — Python's stable sort in
descending composite order, modelled by a stable merge sort whose comparison
holds when the right composite is at most the left one. -/
def multi_agent_scoring (pyHash : String → ℤ) (activeTaskCount : String → Except Unit ℕ)
    (task : Task) (members : List Member) : List ScoredMember :=
  (members.map (scoreMember pyHash activeTaskCount task)).mergeSort
    (fun a b => decide (b.scores.composite ≤ a.scores.composite))

/-! ### Outcome capture (`outcome_capture.py`) -/

/-- `OutcomeTemplateType` enum. -/
inductive OutcomeTemplateType where
  | medication
  | safety
  | appointment
  | general
deriving DecidableEq, Repr

/-- The string value of an `OutcomeTemplateType` enum member. -/
def OutcomeTemplateType.value : OutcomeTemplateType → String
  | .medication => "medication"
  | .safety => "safety"
  | .appointment => "appointment"
  | .general => "general"

/-- An `Evidence` dataclass record. -/
structure Evidence where
  type : String
  data : String
  timestamp : String
  description : Option String := none
deriving DecidableEq, Repr

/-- One entry of a follow-up task template's `checklist`. -/
structure ChecklistItem where
  text : String
  required : Bool
deriving DecidableEq, Repr

/-- The `follow_up_task_template` dict of a `FollowUpRule`. -/
structure FollowUpTaskTemplate where
  title : String
  description : String
  priority : String
  estimatedMinutes : ℕ
  checklist : List ChecklistItem
  dueInHours : ℚ
deriving DecidableEq, Repr

/-- `FollowUpRule` dataclass. -/
structure FollowUpRule where
  outcome_condition : String
  follow_up_task_template : FollowUpTaskTemplate
  due_in_hours : ℚ
deriving DecidableEq, Repr

/-- `OutcomeTemplateDefinition` dataclass. -/
structure OutcomeTemplateDefinition where
  template_type : OutcomeTemplateType
  title : String
  description : String
  outcome_options : List String
  follow_up_rules : List FollowUpRule
  evidence_types : List String
deriving DecidableEq, Repr

/-- Embeds `create_medication_template`. -/
def create_medication_template : OutcomeTemplateDefinition where
  template_type := .medication
  title := "Medication Verification Outcome"
  description := "Document the outcome of medication verification task"
  outcome_options := [
    "All doses verified and taken",
    "Some doses missed",
    "Doses refused",
    "Unable to verify",
    "Medication not available"]
  follow_up_rules := [
    { outcome_condition := "Some doses missed"
      follow_up_task_template := {
        title := "Follow up on missed medication doses"
        description := "Contact elder to understand why doses were missed and reschedule"
        priority := "high"
        estimatedMinutes := 15
        checklist := [
          { text := "Contact elder about missed doses", required := true },
          { text := "Understand reason for missing doses", required := true },
          { text := "Reschedule missed doses if appropriate", required := true },
          { text := "Document reason in notes", required := false }]
        dueInHours := 4 }
      due_in_hours := 4 },
    { outcome_condition := "Doses refused"
      follow_up_task_template := {
        title := "Investigate medication refusal"
        description := "Understand why elder is refusing medication and escalate if needed"
        priority := "high"
        estimatedMinutes := 20
        checklist := [
          { text := "Ask about side effects or concerns", required := true },
          { text := "Contact primary care physician if needed", required := true },
          { text := "Document refusal reason", required := true }]
        dueInHours := 2 }
      due_in_hours := 2 },
    { outcome_condition := "Unable to verify"
      follow_up_task_template := {
        title := "Escalate medication verification issue"
        description := "Unable to verify medication status - escalate to primary caregiver"
        priority := "urgent"
        estimatedMinutes := 10
        checklist := [
          { text := "Contact primary caregiver", required := true },
          { text := "Provide context about verification issue", required := true }]
        dueInHours := 1 }
      due_in_hours := 1 }]
  evidence_types := ["photo", "notes", "timestamp"]

/-- Embeds `create_safety_template`. -/
def create_safety_template : OutcomeTemplateDefinition where
  template_type := .safety
  title := "Safety Check Outcome"
  description := "Document the outcome of safety check task"
  outcome_options := [
    "All safety checks passed",
    "Minor safety issues found",
    "Major safety concerns identified",
    "Immediate intervention required"]
  follow_up_rules := [
    { outcome_condition := "Minor safety issues found"
      follow_up_task_template := {
        title := "Address minor safety issues"
        description := "Implement solutions for identified minor safety concerns"
        priority := "medium"
        estimatedMinutes := 30
        checklist := [
          { text := "Identify specific safety issues", required := true },
          { text := "Implement corrective measures", required := true },
          { text := "Verify improvements", required := true }]
        dueInHours := 24 }
      due_in_hours := 24 },
    { outcome_condition := "Major safety concerns identified"
      follow_up_task_template := {
        title := "Address major safety concerns"
        description := "Urgent action needed to address major safety concerns"
        priority := "urgent"
        estimatedMinutes := 60
        checklist := [
          { text := "Document all safety concerns", required := true },
          { text := "Contact family members", required := true },
          { text := "Implement immediate safety measures", required := true },
          { text := "Consider professional assessment", required := true }]
        dueInHours := 2 }
      due_in_hours := 2 },
    { outcome_condition := "Immediate intervention required"
      follow_up_task_template := {
        title := "Emergency safety intervention"
        description := "Immediate action required for critical safety issue"
        priority := "urgent"
        estimatedMinutes := 15
        checklist := [
          { text := "Ensure elder safety immediately", required := true },
          { text := "Contact emergency services if needed", required := true },
          { text := "Notify all family members", required := true }]
        dueInHours := 0.5 }
      due_in_hours := 0.5 }]
  evidence_types := ["photo", "video", "notes", "timestamp"]

/-- Embeds `create_appointment_template`. -/
def create_appointment_template : OutcomeTemplateDefinition where
  template_type := .appointment
  title := "Medical Appointment Outcome"
  description := "Document the outcome of medical appointment"
  outcome_options := [
    "Appointment completed successfully",
    "Appointment rescheduled",
    "Appointment cancelled",
    "Elder refused to attend",
    "Transportation issue"]
  follow_up_rules := [
    { outcome_condition := "Appointment completed successfully"
      follow_up_task_template := {
        title := "Document appointment results"
        description := "Collect and document results from completed appointment"
        priority := "medium"
        estimatedMinutes := 20
        checklist := [
          { text := "Collect appointment summary from elder", required := true },
          { text := "Document any new medications or instructions", required := true },
          { text := "Schedule any recommended follow-ups", required := true }]
        dueInHours := 4 }
      due_in_hours := 4 },
    { outcome_condition := "Appointment rescheduled"
      follow_up_task_template := {
        title := "Confirm rescheduled appointment"
        description := "Confirm new appointment date and time with elder"
        priority := "medium"
        estimatedMinutes := 10
        checklist := [
          { text := "Confirm new appointment date/time", required := true },
          { text := "Update calendar", required := true },
          { text := "Arrange transportation if needed", required := true }]
        dueInHours := 24 }
      due_in_hours := 24 },
    { outcome_condition := "Elder refused to attend"
      follow_up_task_template := {
        title := "Follow up on appointment refusal"
        description := "Understand why elder refused appointment and escalate if needed"
        priority := "high"
        estimatedMinutes := 20
        checklist := [
          { text := "Understand reason for refusal", required := true },
          { text := "Contact physician if medically necessary", required := true },
          { text := "Document refusal and reason", required := true }]
        dueInHours := 4 }
      due_in_hours := 4 }]
  evidence_types := ["notes", "documents", "timestamp"]

/-- Embeds `create_general_template`. -/
def create_general_template : OutcomeTemplateDefinition where
  template_type := .general
  title := "General Task Outcome"
  description := "Document the outcome of a general care task"
  outcome_options := [
    "Completed successfully",
    "Partially completed",
    "Not completed",
    "Escalated"]
  follow_up_rules := [
    { outcome_condition := "Partially completed"
      follow_up_task_template := {
        title := "Complete remaining task items"
        description := "Complete the remaining items from the original task"
        priority := "medium"
        estimatedMinutes := 30
        checklist := [
          { text := "Review what was not completed", required := true },
          { text := "Complete remaining items", required := true },
          { text := "Verify completion", required := true }]
        dueInHours := 24 }
      due_in_hours := 24 },
    { outcome_condition := "Not completed"
      follow_up_task_template := {
        title := "Retry incomplete task"
        description := "Attempt to complete the task again"
        priority := "high"
        estimatedMinutes := 30
        checklist := [
          { text := "Understand reason for non-completion", required := true },
          { text := "Address any barriers", required := true },
          { text := "Retry task completion", required := true }]
        dueInHours := 12 }
      due_in_hours := 12 },
    { outcome_condition := "Escalated"
      follow_up_task_template := {
        title := "Handle escalated task"
        description := "Task has been escalated and requires attention"
        priority := "urgent"
        estimatedMinutes := 20
        checklist := [
          { text := "Review escalation reason", required := true },
          { text := "Determine appropriate action", required := true },
          { text := "Assign to appropriate person", required := true }]
        dueInHours := 2 }
      due_in_hours := 2 }]
  evidence_types := ["notes", "timestamp"]

/-- The `OUTCOME_TEMPLATES` registry. -/
def OUTCOME_TEMPLATES : OutcomeTemplateType → OutcomeTemplateDefinition
  | .medication => create_medication_template
  | .safety => create_safety_template
  | .appointment => create_appointment_template
  | .general => create_general_template

/-- The `OutcomeTemplateType(template_type)` enum construction: `some` for the
four registered string values, `none` for the `ValueError` case. -/
def outcomeTemplateTypeOfString : String → Option OutcomeTemplateType
  | "medication" => some .medication
  | "safety" => some .safety
  | "appointment" => some .appointment
  | "general" => some .general
  | _ => none

/-- Embeds `OutcomeCaptureService.get_outcome_template`: resolve the string to
a template, or `none` when the string is not a registered type. -/
def get_outcome_template (template_type : String) : Option OutcomeTemplateDefinition :=
  (outcomeTemplateTypeOfString template_type).map OUTCOME_TEMPLATES

/-- Embeds `_evaluate_outcome_condition`: plain string equality. -/
def evaluateOutcomeCondition (condition outcome : String) : Bool :=
  condition == outcome

/-- Embeds `_should_generate_follow_up`: some rule's condition matches the
outcome. -/
def shouldGenerateFollowUp (template : OutcomeTemplateDefinition) (outcome : String) : Bool :=
  template.follow_up_rules.any (fun rule => evaluateOutcomeCondition rule.outcome_condition outcome)

/-- Embeds `_calculate_next_check_in`: `utcnow() + timedelta(hours=rule.due_in_hours)`
for the first matching rule, else `None`.  Time is modelled as rational hours
since an arbitrary origin, with `now` the instant `datetime.utcnow()` reads. -/
def calculateNextCheckIn (template : OutcomeTemplateDefinition) (outcome : String) (now : ℚ) :
    Option ℚ :=
  (template.follow_up_rules.find? (fun rule => evaluateOutcomeCondition rule.outcome_condition outcome)).map
    (fun rule => now + rule.due_in_hours)

/-- The `captured_outcome` dict built by `capture_outcome` on success. -/
structure CapturedOutcome where
  actionTaken : String
  emergencyServicesCalled : Bool
  notes : String
  evidence : List Evidence
  followUpRequired : Bool
  nextCheckIn : Option ℚ
deriving DecidableEq, Repr

/-- Embeds `OutcomeCaptureService.capture_outcome`: a `(success, errors,
captured)` triple — validation failure is a returned value, never an
exception.  Fails when the template type is unregistered or the outcome is
not among the template's `outcome_options`; on success `followUpRequired`
records whether some follow-up rule matched and `nextCheckIn` the first
matching rule's deadline. -/
def capture_outcome (task_id template_type outcome notes : String)
    (evidence : Option (List Evidence)) (now : ℚ) :
    Bool × List String × Option CapturedOutcome :=
  match get_outcome_template template_type with
  | none => (false, ["Invalid outcome template type"], none)
  | some template =>
    let errors : List String :=
      if !template.outcome_options.contains outcome then ["Invalid outcome: " ++ outcome] else []
    if !errors.isEmpty then
      (false, errors, none)
    else
      (true, [],
        some
          { actionTaken := outcome
            emergencyServicesCalled := false
            notes := notes
            evidence := evidence.getD []
            followUpRequired := shouldGenerateFollowUp template outcome
            nextCheckIn := calculateNextCheckIn template outcome now })

/-- Embeds `OutcomeCaptureService.generate_follow_up_tasks`: the task
templates of every rule whose condition matches the outcome (empty for an
unregistered template type). -/
def generate_follow_up_tasks (template_type outcome : String) : List FollowUpTaskTemplate :=
  match get_outcome_template template_type with
  | none => []
  | some template =>
    (template.follow_up_rules.filter
      (fun rule => evaluateOutcomeCondition rule.outcome_condition outcome)).map
      (fun rule => rule.follow_up_task_template)

/-! ### Concrete sessions used by the claim analyses -/

/-- A Fall-scenario session at step 1 whose response map is exactly
`{consciousness: false}` — the failing input of the Fall emergency-path
claim. -/
def fallSessionConsciousnessFalse : TriageSession where
  alert_id := "alert-1"
  protocol_type := .fall
  current_step_number := 1
  responses := [("consciousness", .bool false)]
  created_at := 0
  updated_at := 0

/-- An Injury-scenario session at step 1 with no responses recorded yet. -/
def injurySessionEmpty : TriageSession where
  alert_id := "alert-2"
  protocol_type := .injury
  current_step_number := 1
  responses := []
  created_at := 0
  updated_at := 0

/-- A Fall-scenario session at the final step (4) with no responses. -/
def fallSessionStep4 : TriageSession where
  alert_id := "alert-3"
  protocol_type := .fall
  current_step_number := 4
  responses := []
  created_at := 0
  updated_at := 0

/-- A Fall-scenario session at step 1 where severe injury was answered
`"yes"` (a genuine emergency transition: the `severe_injury_yes` disjunct of
the first transition fires). -/
def fallSessionSevereInjury : TriageSession where
  alert_id := "alert-4"
  protocol_type := .fall
  current_step_number := 1
  responses := [("severe_injury", .str "yes")]
  created_at := 0
  updated_at := 0

/-- A placeholder step used only as the `getD` fallback when a witness reads
a step that is proved to exist. -/
def fallbackStep : TriageStep where
  step_number := 0
  title := ""
  questions := []
  critical_flags := []
  next_step_logic := []

/-- A task with no required skills, used to exercise a scoring tie. -/
def tieTask : Task where
  required_skills := []
  urgency := "medium"
  elder_zipcode := "94103"

/-- First member of the scoring-tie pair. -/
def tieMemberA : Member where
  member_id := "member-a"
  zipcode := "94105"
  skills := []
  availability := "flexible"

/-- Second member of the scoring-tie pair: identical scoring inputs, so the
composite ties with `tieMemberA`. -/
def tieMemberB : Member where
  member_id := "member-b"
  zipcode := "94107"
  skills := []
  availability := "flexible"

/-- A hash collaborator that sends every string to 0 (distance bucket
`< 1` mile). -/
def zeroHash : String → ℤ := fun _ => 0

/-- A workload collaborator reporting no active tasks for anyone. -/
def zeroActiveTasks : String → Except Unit ℕ := fun _ => .ok 0

end CareCircle

namespace CareCircle

/-! ### General lemmas about the embedded operations -/

/-- When the condition splits at a single `">="` occurrence,
`_evaluate_single_condition` performs the float comparison, with a missing
key resolving to false and a failed coercion raising. -/
theorem evalSingleCondition_ge (responses : Responses) (cond q v : String)
    (hsplit : pySplit cond ">=" = [q, v]) :
    evalSingleCondition responses cond =
      match getResponse responses (pyStrip q) with
      | none => .ok false
      | some resp =>
        match pyFloat resp with
        | .error e => .error e
        | .ok x =>
          match pyFloatOfString (pyStrip v) with
          | .error e => .error e
          | .ok threshold => .ok (decide (threshold ≤ x)) := by
  unfold evalSingleCondition
  rw [hsplit]

/-- Comparison semantics when the stored response fails float coercion: the
exception propagates. -/
theorem evalSingleCondition_ge_err (responses : Responses) (cond q v : String) (rv : Value)
    (e : PyErr) (hsplit : pySplit cond ">=" = [q, v])
    (hsome : getResponse responses (pyStrip q) = some rv)
    (hfloat : pyFloat rv = .error e) :
    evalSingleCondition responses cond = .error e := by
  rw [evalSingleCondition_ge responses cond q v hsplit, hsome]
  simp [hfloat]

/-- Comparison semantics when the response coerces but the threshold string
does not: the threshold's exception propagates. -/
theorem evalSingleCondition_ge_ok_err (responses : Responses) (cond q v : String) (rv : Value)
    (x : ℚ) (e : PyErr) (hsplit : pySplit cond ">=" = [q, v])
    (hsome : getResponse responses (pyStrip q) = some rv)
    (hfloat : pyFloat rv = .ok x) (hthr : pyFloatOfString (pyStrip v) = .error e) :
    evalSingleCondition responses cond = .error e := by
  rw [evalSingleCondition_ge responses cond q v hsplit, hsome]
  simp [hfloat, hthr]

/-- Comparison semantics when both coercions succeed: the float comparison
decides the condition. -/
theorem evalSingleCondition_ge_ok_ok (responses : Responses) (cond q v : String) (rv : Value)
    (x threshold : ℚ) (hsplit : pySplit cond ">=" = [q, v])
    (hsome : getResponse responses (pyStrip q) = some rv)
    (hfloat : pyFloat rv = .ok x) (hthr : pyFloatOfString (pyStrip v) = .ok threshold) :
    evalSingleCondition responses cond = .ok (decide (threshold ≤ x)) := by
  rw [evalSingleCondition_ge responses cond q v hsplit, hsome]
  simp [hfloat, hthr]

/-- When the condition has no `">="` occurrence and splits at a single
`"<="` occurrence, `_evaluate_single_condition` performs the symmetric
`<=` float comparison. -/
theorem evalSingleCondition_le (responses : Responses) (cond s1 q v : String)
    (hge : pySplit cond ">=" = [s1]) (hle : pySplit cond "<=" = [q, v]) :
    evalSingleCondition responses cond =
      match getResponse responses (pyStrip q) with
      | none => .ok false
      | some resp =>
        match pyFloat resp with
        | .error e => .error e
        | .ok x =>
          match pyFloatOfString (pyStrip v) with
          | .error e => .error e
          | .ok threshold => .ok (decide (x ≤ threshold)) := by
  unfold evalSingleCondition
  rw [hge, hle]

/-- `<=` comparison semantics when the stored response fails float coercion:
the exception propagates. -/
theorem evalSingleCondition_le_err (responses : Responses) (cond s1 q v : String) (rv : Value)
    (e : PyErr) (hge : pySplit cond ">=" = [s1]) (hle : pySplit cond "<=" = [q, v])
    (hsome : getResponse responses (pyStrip q) = some rv)
    (hfloat : pyFloat rv = .error e) :
    evalSingleCondition responses cond = .error e := by
  rw [evalSingleCondition_le responses cond s1 q v hge hle, hsome]
  simp [hfloat]

/-- `<=` comparison semantics when the response coerces but the threshold
string does not: the threshold's exception propagates. -/
theorem evalSingleCondition_le_ok_err (responses : Responses) (cond s1 q v : String) (rv : Value)
    (x : ℚ) (e : PyErr) (hge : pySplit cond ">=" = [s1]) (hle : pySplit cond "<=" = [q, v])
    (hsome : getResponse responses (pyStrip q) = some rv)
    (hfloat : pyFloat rv = .ok x) (hthr : pyFloatOfString (pyStrip v) = .error e) :
    evalSingleCondition responses cond = .error e := by
  rw [evalSingleCondition_le responses cond s1 q v hge hle, hsome]
  simp [hfloat, hthr]

/-- `<=` comparison semantics when both coercions succeed: the float
comparison decides the condition. -/
theorem evalSingleCondition_le_ok_ok (responses : Responses) (cond s1 q v : String) (rv : Value)
    (x threshold : ℚ) (hge : pySplit cond ">=" = [s1]) (hle : pySplit cond "<=" = [q, v])
    (hsome : getResponse responses (pyStrip q) = some rv)
    (hfloat : pyFloat rv = .ok x) (hthr : pyFloatOfString (pyStrip v) = .ok threshold) :
    evalSingleCondition responses cond = .ok (decide (x ≤ threshold)) := by
  rw [evalSingleCondition_le responses cond s1 q v hge hle, hsome]
  simp [hfloat, hthr]

/-- When the condition contains neither `">="` nor `"<="` (both splits return
the input whole), `_evaluate_single_condition` falls through to the
exact-match logic. -/
theorem evalSingleCondition_of_no_cmp (responses : Responses) (cond s1 s2 : String)
    (hge : pySplit cond ">=" = [s1]) (hle : pySplit cond "<=" = [s2]) :
    evalSingleCondition responses cond = evalExactMatch responses cond := by
  unfold evalSingleCondition
  rw [hge, hle]

/-- The `"yes"` arm of the exact-match logic: with at least three
underscore-separated pieces and final piece `"yes"`, the evaluator compares
the response stored under the rebuilt question id against Python `True`,
`"yes"` and `"Yes"`. -/
theorem evalExactMatch_last_yes (responses : Responses) (cond : String) (parts : List String)
    (hparts : pySplit cond "_" = parts) (hlen : 3 ≤ parts.length)
    (hlast : parts.getLast?.getD "" = "yes") :
    evalExactMatch responses cond =
      .ok (match getResponse responses (joinSep "_" parts.dropLast) with
           | some v => pyEq v (.bool true) || pyEq v (.str "yes") || pyEq v (.str "Yes")
           | none => false) := by
  unfold evalExactMatch
  rw [hparts, if_pos hlen, hlast]
  simp

/-- The `"no"` arm of the exact-match logic, comparing against Python
`False`, `"no"` and `"No"`. -/
theorem evalExactMatch_last_no (responses : Responses) (cond : String) (parts : List String)
    (hparts : pySplit cond "_" = parts) (hlen : 3 ≤ parts.length)
    (hlast : parts.getLast?.getD "" = "no") :
    evalExactMatch responses cond =
      .ok (match getResponse responses (joinSep "_" parts.dropLast) with
           | some v => pyEq v (.bool false) || pyEq v (.str "no") || pyEq v (.str "No")
           | none => false) := by
  unfold evalExactMatch
  rw [hparts, if_pos hlen, hlast]
  simp

/-- The guard of the exact-match logic: a condition whose `"_"`-split has
fewer than three pieces evaluates to false, whatever the response map. -/
theorem evalExactMatch_short (responses : Responses) (cond : String) (parts : List String)
    (hparts : pySplit cond "_" = parts) (hlen : parts.length < 3) :
    evalExactMatch responses cond = .ok false := by
  unfold evalExactMatch
  rw [hparts, if_neg (by omega)]

/-- The `try/except`-guarded threshold comparison of the `_plus` branch for
the rebuilt threshold string `"plus"` is false for every stored value: the
threshold never parses as a float. -/
theorem plusThresholdBranch_false (v : Value) :
    (match pyFloat v, pyFloatOfString "plus" with
     | .ok x, .ok t => decide (t ≤ x)
     | _, _ => false) = false := by
  rcases pyFloat v with e | x
  · rfl
  · rfl

/-- `firstTransition` returns the target of transition `k` when every earlier
condition evaluates to false and condition `k` evaluates to true. -/
theorem firstTransition_first_true (responses : Responses) (ts : List StepTransition)
    (k : ℕ) (t : StepTransition) (hk : ts[k]? = some t)
    (hbefore : ∀ m t', m < k → ts[m]? = some t' →
      evalCondition responses t'.condition = .ok false)
    (ht : evalCondition responses t.condition = .ok true) :
    firstTransition responses ts = .ok (some t.next_step) := by
  induction ts generalizing k with
  | nil => simp at hk
  | cons head tail ih =>
    cases k with
    | zero =>
      simp only [List.getElem?_cons_zero, Option.some.injEq] at hk
      subst hk
      simp [firstTransition, ht]
    | succ k' =>
      have hhead : evalCondition responses head.condition = .ok false :=
        hbefore 0 head (Nat.succ_pos _) (by simp)
      simp only [firstTransition, hhead]
      exact ih k' (by simpa using hk)
        (fun m t' hm h' => hbefore (m + 1) t' (by omega) (by simpa using h'))

/-- `firstTransition` returns `none` when every condition evaluates to
false. -/
theorem firstTransition_all_false (responses : Responses) (ts : List StepTransition)
    (h : ∀ t ∈ ts, evalCondition responses t.condition = .ok false) :
    firstTransition responses ts = .ok none := by
  induction ts with
  | nil => rfl
  | cons head tail ih =>
    have hhead := h head (by simp)
    simp only [firstTransition, hhead]
    exact ih (fun t ht => h t (by simp [ht]))

/-- Two positions of a list, in order, form a two-element sublist. -/
theorem pair_getElem_sublist {α : Type _} (l : List α) (i j : ℕ) (hi : i < l.length)
    (hj : j < l.length) (hij : i < j) :
    [l.get ⟨i, hi⟩, l.get ⟨j, hj⟩].Sublist l := by
  induction l generalizing i j with
  | nil => simp at hi
  | cons a t ih =>
    cases i with
    | zero =>
      cases j with
      | zero => omega
      | succ j' =>
        apply List.Sublist.cons₂
        exact List.singleton_sublist.mpr (t.get_mem _ _)
    | succ i' =>
      cases j with
      | zero => omega
      | succ j' =>
        exact List.Sublist.cons a (ih i' j' (by simpa using hi) (by simpa using hj) (by omega))

/-- The descending-composite comparison used by the scorer's sort is
transitive. -/
theorem scoredLE_trans (a b c : ScoredMember)
    (hab : decide (b.scores.composite ≤ a.scores.composite) = true)
    (hbc : decide (c.scores.composite ≤ b.scores.composite) = true) :
    decide (c.scores.composite ≤ a.scores.composite) = true := by
  simp only [decide_eq_true_eq] at *
  exact le_trans hbc hab

/-- The descending-composite comparison used by the scorer's sort is total. -/
theorem scoredLE_total (a b : ScoredMember) :
    (decide (b.scores.composite ≤ a.scores.composite) ||
      decide (a.scores.composite ≤ b.scores.composite)) = true := by
  simpa using le_total b.scores.composite a.scores.composite

/-- The proximity score is always one of the three near buckets: the demo
distance `(abs(hash) % 100) / 10.0` is below 10 miles. -/
theorem calculate_proximity_score_cases (pyHash : String → ℤ) (mz ez : String) :
    calculate_proximity_score pyHash mz ez = 100.0 ∨
    calculate_proximity_score pyHash mz ez = 80.0 ∨
    calculate_proximity_score pyHash mz ez = 60.0 := by
  simp only [calculate_proximity_score]
  have key : ∀ k : ℕ, k < 100 → mkRat (k : ℤ) 10 < 10 := by
    intro k hk
    have he : mkRat (k : ℤ) 10 = (k : ℚ) / 10 := by
      rw [Rat.mkRat_eq_divInt, Rat.divInt_eq_div]
      push_cast
      ring
    rw [he, div_lt_iff₀ (by norm_num : (0:ℚ) < 10)]
    have hq : (k : ℚ) < 100 := by exact_mod_cast hk
    linarith
  have hlt : mkRat (((pyHash (mz ++ ez)).natAbs % 100 : ℕ) : ℤ) 10 < 10 :=
    key _ (Nat.mod_lt _ (by norm_num))
  split
  · left; rfl
  · split
    · right; left; rfl
    · split
      · right; right; rfl
      · split
        · rename_i h3 _
          exact absurd hlt h3
        · rename_i h3 _
          exact absurd hlt h3

/-- Bounds for the skill-match score. -/
theorem calculate_skill_match_score_bounds (required_skills member_skills : List String) :
    0 ≤ calculate_skill_match_score required_skills member_skills ∧
    calculate_skill_match_score required_skills member_skills ≤ 100 := by
  simp only [calculate_skill_match_score]
  split
  · norm_num
  · split
    · norm_num
    · rename_i hreq _
      have hlen : 0 < required_skills.length := by
        cases required_skills with
        | nil => simp at hreq
        | cons a t => simp
      have hcount : required_skills.countP (fun skill => member_skills.contains skill) ≤
          required_skills.length := List.countP_le_length _
      have hq : mkRat (required_skills.countP (fun skill => member_skills.contains skill))
          required_skills.length =
          ((required_skills.countP (fun skill => member_skills.contains skill) : ℚ) /
            (required_skills.length : ℚ)) := by
        rw [Rat.mkRat_eq_divInt, Rat.divInt_eq_div]
        push_cast
        ring
      rw [hq]
      have hlenq : (0:ℚ) < (required_skills.length : ℚ) := by exact_mod_cast hlen
      have hcq : ((required_skills.countP (fun skill => member_skills.contains skill) : ℚ)) ≤
          (required_skills.length : ℚ) := by exact_mod_cast hcount
      have hnn : (0:ℚ) ≤ (required_skills.countP (fun skill => member_skills.contains skill) : ℚ) := by
        positivity
      constructor
      · positivity
      · have hle1 : ((required_skills.countP (fun skill => member_skills.contains skill) : ℚ) /
            (required_skills.length : ℚ)) ≤ 1 := by
          rw [div_le_one hlenq]
          exact hcq
        nlinarith

/-- Bounds for the availability score. -/
theorem calculate_availability_score_bounds (availability urgency : String) :
    0 ≤ calculate_availability_score availability urgency ∧
    calculate_availability_score availability urgency ≤ 100 := by
  unfold calculate_availability_score
  split
  · norm_num
  · split
    · split <;> norm_num
    · split
      · split <;> norm_num
      · norm_num

/-- Bounds for the workload score. -/
theorem calculate_workload_score_bounds (activeTaskCount : String → Except Unit ℕ)
    (member_id : String) :
    0 ≤ calculate_workload_score activeTaskCount member_id ∧
    calculate_workload_score activeTaskCount member_id ≤ 100 := by
  unfold calculate_workload_score
  split
  · norm_num
  · split
    · norm_num
    · split
      · norm_num
      · split
        · norm_num
        · split <;> norm_num

/-! ### Claim analyses -/

/-- C1: the claim states that a Fall-scenario session at step 1 with response
map exactly `{consciousness: false}` has `hasCriticalFlags()` true and
`advance()` returning `"emergency"`.  The code behaves otherwise: the
evaluator's exact-match branch requires at least three underscore-separated
pieces, so the critical flag `consciousness_no` (two pieces) can never fire,
`severe_injury_yes` does not match an absent response, and the `_plus` flag
reads the non-existent key `pain_level_initial_8`.  Hence
`has_critical_flags` is false, `get_next_step` falls through both transitions
to the sequential step 2, and `proceed_to_next_step` advances the session to
step 2 instead of returning `"emergency"`. -/
theorem fall_consciousness_false_does_not_trigger_emergency :
    has_critical_flags fallSessionConsciousnessFalse = .ok false ∧
    get_next_step fallSessionConsciousnessFalse = .ok (.step 2) ∧
    (proceed_to_next_step fallSessionConsciousnessFalse 1).map
        (fun p => (decide (p.1 = ProceedResult.terminal "emergency"), p.2.current_step_number)) =
      .ok (false, 2) :=
  ⟨by decide, by decide, by decide⟩

/-- C2: the claim states that a `"_plus"` exact-match condition such as
`"pain_level_initial_8_plus"` strips `"_plus"`, parses the threshold and
compares the response under `pain_level_initial`; in particular the example
with response 9 should be true.  In the code, splitting on `"_"` makes the
expected value the single final piece `"plus"`: the question id is rebuilt as
`"pain_level_initial_8"` (an id no template uses) and the threshold
`"plus".replace("_plus", "") = "plus"` never parses as a float, so the
`try/except` resolves the condition to false — for every response map. -/
theorem plus_suffix_condition_never_fires :
    (∀ responses : Responses,
       evalSingleCondition responses "pain_level_initial_8_plus" = .ok false) ∧
    evalSingleCondition [("pain_level_initial", .num 9)] "pain_level_initial_8_plus" =
      .ok false := by
  constructor
  · intro responses
    rw [show evalSingleCondition responses "pain_level_initial_8_plus" =
        .ok (match getResponse responses "pain_level_initial_8" with
             | none => false
             | some v =>
               match pyFloat v, pyFloatOfString "plus" with
               | .ok x, .ok t => decide (t ≤ x)
               | _, _ => false) from rfl]
    rcases hr : getResponse responses "pain_level_initial_8" with _ | v
    · rfl
    · exact congrArg Except.ok (plusThresholdBranch_false v)
  · decide

/-- C3 (amended): for both comparison forms — a condition splitting at one
`">="`, or one with no `">="` that splits at one `"<="` — a missing key
yields false without raising, and a response that coerces to a float is
compared against the parsed threshold (numeric strings included, `>=` and
`<=` respectively) — but a stored response that fails `float(...)` coercion,
such as a non-numeric string, raises `ValueError` rather than yielding
false: the comparison forms are not total. -/
theorem comparison_condition_eval_semantics (cond q v : String) (responses : Responses) :
    (pySplit cond ">=" = [q, v] →
       (getResponse responses (pyStrip q) = none →
          evalSingleCondition responses cond = .ok false) ∧
       (∀ rv x, getResponse responses (pyStrip q) = some rv → pyFloat rv = .ok x →
          evalSingleCondition responses cond =
            (pyFloatOfString (pyStrip v)).map (fun threshold => decide (threshold ≤ x))) ∧
       (∀ rv e, getResponse responses (pyStrip q) = some rv → pyFloat rv = .error e →
          evalSingleCondition responses cond = .error e)) ∧
    (∀ s1, pySplit cond ">=" = [s1] → pySplit cond "<=" = [q, v] →
       (getResponse responses (pyStrip q) = none →
          evalSingleCondition responses cond = .ok false) ∧
       (∀ rv x, getResponse responses (pyStrip q) = some rv → pyFloat rv = .ok x →
          evalSingleCondition responses cond =
            (pyFloatOfString (pyStrip v)).map (fun threshold => decide (x ≤ threshold))) ∧
       (∀ rv e, getResponse responses (pyStrip q) = some rv → pyFloat rv = .error e →
          evalSingleCondition responses cond = .error e)) := by
  constructor
  · intro hsplit
    refine ⟨?_, ?_, ?_⟩
    · intro hnone
      rw [evalSingleCondition_ge responses cond q v hsplit, hnone]
    · intro rv x hsome hfloat
      rcases ht : pyFloatOfString (pyStrip v) with e | t
      · rw [evalSingleCondition_ge_ok_err responses cond q v rv x e hsplit hsome hfloat ht]
        rfl
      · rw [evalSingleCondition_ge_ok_ok responses cond q v rv x t hsplit hsome hfloat ht]
        rfl
    · intro rv e hsome hfloat
      exact evalSingleCondition_ge_err responses cond q v rv e hsplit hsome hfloat
  · intro s1 hge hle
    refine ⟨?_, ?_, ?_⟩
    · intro hnone
      rw [evalSingleCondition_le responses cond s1 q v hge hle, hnone]
    · intro rv x hsome hfloat
      rcases ht : pyFloatOfString (pyStrip v) with e | t
      · rw [evalSingleCondition_le_ok_err responses cond s1 q v rv x e hge hle hsome hfloat ht]
        rfl
      · rw [evalSingleCondition_le_ok_ok responses cond s1 q v rv x t hge hle hsome hfloat ht]
        rfl
    · intro rv e hsome hfloat
      exact evalSingleCondition_le_err responses cond s1 q v rv e hge hle hsome hfloat

/-- Witness for C3: the specification's own `>=` examples plus the symmetric
`<=` form, all derived from the comparison semantics — a numeric-string
response `"9"` satisfies `"pain_scale >= 8"` but not `"pain_scale <= 8"`,
the empty response map yields false, and a response 3 satisfies
`"pain_scale <= 8"`. -/
theorem comparison_condition_eval_semantics_witness :
    evalSingleCondition [("pain_scale", .str "9")] "pain_scale >= 8" = .ok true ∧
    evalSingleCondition [] "pain_scale >= 8" = .ok false ∧
    evalSingleCondition [("pain_scale", .num 3)] "pain_scale <= 8" = .ok true ∧
    evalSingleCondition [("pain_scale", .str "9")] "pain_scale <= 8" = .ok false := by
  refine ⟨?_, ?_, ?_, ?_⟩
  · have h := ((comparison_condition_eval_semantics "pain_scale >= 8" "pain_scale " " 8"
      [("pain_scale", .str "9")]).1 (by decide)).2.1 (.str "9") 9 (by decide) (by decide)
    rw [h]
    decide
  · exact ((comparison_condition_eval_semantics "pain_scale >= 8" "pain_scale " " 8"
      []).1 (by decide)).1 (by decide)
  · have h := ((comparison_condition_eval_semantics "pain_scale <= 8" "pain_scale " " 8"
      [("pain_scale", .num 3)]).2 "pain_scale <= 8" (by decide) (by decide)).2.1
      (.num 3) 3 (by decide) (by decide)
    rw [h]
    decide
  · have h := ((comparison_condition_eval_semantics "pain_scale <= 8" "pain_scale " " 8"
      [("pain_scale", .str "9")]).2 "pain_scale <= 8" (by decide) (by decide)).2.1
      (.str "9") 9 (by decide) (by decide)
    rw [h]
    decide

/-- Counterexample to C3 as stated: the claim says the comparison evaluator
never raises and treats a non-numeric value as false, but evaluating
`"pain_scale >= 8"` against `{pain_scale: "high"}` raises `ValueError`
(the `float(response)` call is not guarded). -/
theorem comparison_condition_raises_on_nonnumeric :
    evalSingleCondition [("pain_scale", .str "high")] "pain_scale >= 8" =
      .error .valueError := by decide

/-- C4 (amended): for an exact-match condition (one containing neither
comparison operator) whose `"_"`-split has at least three pieces and ends in
`"yes"`, the evaluator returns true iff the response stored under the
rebuilt question id equals (by Python `==`) boolean `True` or one of the
literal strings `"yes"` / `"Yes"`; symmetrically a final piece `"no"`
matches boolean `False` or the literal strings `"no"` / `"No"`.  The match
is not case-insensitive (`"YES"` and `"NO"` do not match), and a condition
whose split has fewer than three pieces — such as `consciousness_yes` —
evaluates false for every response map. -/
theorem exact_match_yes_no_eval_semantics (cond s1 s2 : String) (parts : List String)
    (responses : Responses)
    (hge : pySplit cond ">=" = [s1]) (hle : pySplit cond "<=" = [s2])
    (hparts : pySplit cond "_" = parts) :
    (3 ≤ parts.length → parts.getLast?.getD "" = "yes" →
       evalSingleCondition responses cond =
         .ok (match getResponse responses (joinSep "_" parts.dropLast) with
              | some v => pyEq v (.bool true) || pyEq v (.str "yes") || pyEq v (.str "Yes")
              | none => false)) ∧
    (3 ≤ parts.length → parts.getLast?.getD "" = "no" →
       evalSingleCondition responses cond =
         .ok (match getResponse responses (joinSep "_" parts.dropLast) with
              | some v => pyEq v (.bool false) || pyEq v (.str "no") || pyEq v (.str "No")
              | none => false)) ∧
    (parts.length < 3 →
       evalSingleCondition responses cond = .ok false) := by
  refine ⟨?_, ?_, ?_⟩
  · intro hlen hlast
    rw [evalSingleCondition_of_no_cmp responses cond s1 s2 hge hle]
    exact evalExactMatch_last_yes responses cond parts hparts hlen hlast
  · intro hlen hlast
    rw [evalSingleCondition_of_no_cmp responses cond s1 s2 hge hle]
    exact evalExactMatch_last_no responses cond parts hparts hlen hlast
  · intro hlen
    rw [evalSingleCondition_of_no_cmp responses cond s1 s2 hge hle]
    exact evalExactMatch_short responses cond parts hparts hlen

/-- Witness for C4: `severe_injury_yes` matches the stored string `"Yes"`,
`breathing_status_no` matches the stored boolean `False`, and the two-piece
condition `consciousness_yes` evaluates false even for the stored string
`"yes"`, all derived from the exact-match semantics. -/
theorem exact_match_yes_no_eval_semantics_witness :
    evalSingleCondition [("severe_injury", .str "Yes")] "severe_injury_yes" = .ok true ∧
    evalSingleCondition [("breathing_status", .bool false)] "breathing_status_no" = .ok true ∧
    evalSingleCondition [("consciousness", .str "yes")] "consciousness_yes" = .ok false := by
  refine ⟨?_, ?_, ?_⟩
  · have h := (exact_match_yes_no_eval_semantics "severe_injury_yes" "severe_injury_yes"
      "severe_injury_yes" ["severe", "injury", "yes"] [("severe_injury", .str "Yes")]
      (by decide) (by decide) (by decide)).1 (by decide) (by decide)
    rw [h]
    decide
  · have h := (exact_match_yes_no_eval_semantics "breathing_status_no" "breathing_status_no"
      "breathing_status_no" ["breathing", "status", "no"] [("breathing_status", .bool false)]
      (by decide) (by decide) (by decide)).2.1 (by decide) (by decide)
    rw [h]
    decide
  · exact (exact_match_yes_no_eval_semantics "consciousness_yes" "consciousness_yes"
      "consciousness_yes" ["consciousness", "yes"] [("consciousness", .str "yes")]
      (by decide) (by decide) (by decide)).2.2 (by decide)

/-- Counterexample to C4 as stated: the claim promises case-insensitive
matching (`"YES"` matches) for every condition of the form
`"<questionId>_yes"`; in the code the uppercase string `"YES"` does not match
(only `True`, `"yes"`, `"Yes"` do), and the two-piece condition
`"consciousness_yes"` evaluates false even for a boolean `True` response. -/
theorem exact_match_yes_no_case_counterexample :
    evalSingleCondition [("severe_injury", .str "YES")] "severe_injury_yes" = .ok false ∧
    evalSingleCondition [("consciousness", .bool true)] "consciousness_yes" = .ok false := by
  decide

/-- C5: for a session whose current step exists in its (registered) template,
`get_next_step` returns the target of the first transition whose condition
evaluates true, scanning in declared order; when every transition's condition
evaluates false it falls back to the next sequential step number if the
template defines it and to `"complete"` otherwise.  In particular a step with
transitions `[A -> emergency, DEFAULT -> 2]` yields step 2 whenever condition
`A` is false — and, the evaluation being a pure function of the session,
every repetition of the call returns the same result. -/
theorem get_next_step_first_match_fallback (s : TriageSession) (current_step : TriageStep)
    (hstep : find_step_by_number s.template s.current_step_number = some current_step) :
    (∀ (k : ℕ) (t : StepTransition), current_step.next_step_logic[k]? = some t →
       (∀ (m : ℕ) (t' : StepTransition), m < k → current_step.next_step_logic[m]? = some t' →
          evalCondition s.responses t'.condition = .ok false) →
       evalCondition s.responses t.condition = .ok true →
       get_next_step s = .ok t.next_step) ∧
    ((∀ t ∈ current_step.next_step_logic, evalCondition s.responses t.condition = .ok false) →
       get_next_step s =
         .ok (if (find_step_by_number s.template (s.current_step_number + 1)).isSome then
                .step (s.current_step_number + 1)
              else
                .complete)) ∧
    (∀ A : String, current_step.next_step_logic =
        [{ condition := A, next_step := .emergency },
         { condition := "DEFAULT", next_step := .step 2 }] →
       evalCondition s.responses A = .ok false →
       get_next_step s = .ok (.step 2)) := by
  refine ⟨?_, ?_, ?_⟩
  · intro k t hk hbefore ht
    unfold get_next_step
    rw [hstep]
    simp only [firstTransition_first_true s.responses current_step.next_step_logic k t hk
      hbefore ht]
  · intro hall
    unfold get_next_step
    rw [hstep]
    simp only [firstTransition_all_false s.responses current_step.next_step_logic hall]
    cases hnext : (find_step_by_number s.template (s.current_step_number + 1)).isSome <;>
      simp [hnext]
  · intro A hlogic hA
    have hfirst : firstTransition s.responses current_step.next_step_logic =
        .ok (some (.step 2)) := by
      rw [hlogic]
      simp only [firstTransition, hA]
      rfl
    unfold get_next_step
    rw [hstep]
    simp only [hfirst]

/-- Witness for C5: the Injury template's step 1 is literally of the shape
`[A -> emergency, DEFAULT -> 2]`; with no responses recorded, condition `A`
evaluates false and `get_next_step` resolves to step 2. -/
theorem get_next_step_first_match_fallback_witness :
    get_next_step injurySessionEmpty = .ok (.step 2) := by
  have h := (get_next_step_first_match_fallback injurySessionEmpty
      (create_injury_protocol.steps.getD 0 fallbackStep) (by decide)).2.2
    "consciousness_no OR bleeding_severity_severe OR breathing_status_no"
    (by decide) (by decide)
  exact h

/-- C6: when `get_next_step` resolves to a terminal result, `advance`
(`proceed_to_next_step`) returns that terminal string and leaves the session
record — current step, responses, `created_at`, `updated_at` — entirely
unchanged; when it resolves to an integer step number `n` defined by the
template, the current step becomes `n` (with `updated_at` refreshed) and the
new step's definition is returned. -/
theorem proceed_to_next_step_frame (s : TriageSession) (now : ℕ) :
    (get_next_step s = .ok .emergency →
       proceed_to_next_step s now = .ok (.terminal "emergency", s)) ∧
    (get_next_step s = .ok .complete →
       proceed_to_next_step s now = .ok (.terminal "complete", s)) ∧
    (∀ (n : ℕ) (st : TriageStep), get_next_step s = .ok (.step n) →
       find_step_by_number s.template n = some st →
       proceed_to_next_step s now =
         .ok (.stepDef st, { s with current_step_number := n, updated_at := now })) := by
  refine ⟨?_, ?_, ?_⟩
  · intro h
    unfold proceed_to_next_step
    simp only [h]
  · intro h
    unfold proceed_to_next_step
    simp only [h]
  · intro n st h hfind
    have hcur : get_current_step { s with current_step_number := n, updated_at := now } =
        .ok st := by
      unfold get_current_step
      have hsame : find_step_by_number
          (TriageSession.template { s with current_step_number := n, updated_at := now }) n =
          some st := hfind
      rw [hsame]
    unfold proceed_to_next_step
    simp only [h, hcur]

/-- Witness for C6: a Fall session at step 1 that answered severe injury
`"yes"` resolves to `"emergency"`, and `advance` returns the terminal string
with the session untouched. -/
theorem proceed_to_next_step_frame_witness :
    proceed_to_next_step fallSessionSevereInjury 9 =
      .ok (.terminal "emergency", fallSessionSevereInjury) :=
  (proceed_to_next_step_frame fallSessionSevereInjury 9).1 (by decide)

/-- C7: for every task and candidate (and any hash/workload collaborators),
the score breakdown satisfies
`composite = 0.30*proximity + 0.30*skill + 0.20*availability + 0.20*workload`
exactly (the model computes in ℚ, where the equation the specification states
up to 1e-6 float tolerance is exact), and the four sub-scores and the
composite all lie in [0, 100]. -/
theorem score_breakdown_composite_invariant (pyHash : String → ℤ)
    (activeTaskCount : String → Except Unit ℕ) (task : Task) (member : Member) :
    ((scoreMember pyHash activeTaskCount task member).scores.composite =
       0.30 * (scoreMember pyHash activeTaskCount task member).scores.proximity +
       0.30 * (scoreMember pyHash activeTaskCount task member).scores.skill +
       0.20 * (scoreMember pyHash activeTaskCount task member).scores.availability +
       0.20 * (scoreMember pyHash activeTaskCount task member).scores.workload) ∧
    (0 ≤ (scoreMember pyHash activeTaskCount task member).scores.proximity ∧
       (scoreMember pyHash activeTaskCount task member).scores.proximity ≤ 100) ∧
    (0 ≤ (scoreMember pyHash activeTaskCount task member).scores.skill ∧
       (scoreMember pyHash activeTaskCount task member).scores.skill ≤ 100) ∧
    (0 ≤ (scoreMember pyHash activeTaskCount task member).scores.availability ∧
       (scoreMember pyHash activeTaskCount task member).scores.availability ≤ 100) ∧
    (0 ≤ (scoreMember pyHash activeTaskCount task member).scores.workload ∧
       (scoreMember pyHash activeTaskCount task member).scores.workload ≤ 100) ∧
    (0 ≤ (scoreMember pyHash activeTaskCount task member).scores.composite ∧
       (scoreMember pyHash activeTaskCount task member).scores.composite ≤ 100) := by
  have hprox : 0 ≤ calculate_proximity_score pyHash member.zipcode task.elder_zipcode ∧
      calculate_proximity_score pyHash member.zipcode task.elder_zipcode ≤ 100 := by
    rcases calculate_proximity_score_cases pyHash member.zipcode task.elder_zipcode with
      h | h | h <;> rw [h] <;> norm_num
  have hskill := calculate_skill_match_score_bounds task.required_skills member.skills
  have havail := calculate_availability_score_bounds member.availability task.urgency
  have hwork := calculate_workload_score_bounds activeTaskCount member.member_id
  have hcomposite :
      (scoreMember pyHash activeTaskCount task member).scores.composite =
        0.30 * (scoreMember pyHash activeTaskCount task member).scores.proximity +
        0.30 * (scoreMember pyHash activeTaskCount task member).scores.skill +
        0.20 * (scoreMember pyHash activeTaskCount task member).scores.availability +
        0.20 * (scoreMember pyHash activeTaskCount task member).scores.workload := by
    simp only [scoreMember]
    ring
  have hfields :
      (scoreMember pyHash activeTaskCount task member).scores.proximity =
        calculate_proximity_score pyHash member.zipcode task.elder_zipcode ∧
      (scoreMember pyHash activeTaskCount task member).scores.skill =
        calculate_skill_match_score task.required_skills member.skills ∧
      (scoreMember pyHash activeTaskCount task member).scores.availability =
        calculate_availability_score member.availability task.urgency ∧
      (scoreMember pyHash activeTaskCount task member).scores.workload =
        calculate_workload_score activeTaskCount member.member_id := ⟨rfl, rfl, rfl, rfl⟩
  obtain ⟨hf1, hf2, hf3, hf4⟩ := hfields
  refine ⟨hcomposite, ?_, ?_, ?_, ?_, ?_⟩
  · rw [hf1]; exact hprox
  · rw [hf2]; exact hskill
  · rw [hf3]; exact havail
  · rw [hf4]; exact hwork
  · rw [hcomposite, hf1, hf2, hf3, hf4]
    constructor
    · have := hprox.1; have := hskill.1; have := havail.1; have := hwork.1
      nlinarith [hprox.1, hskill.1, havail.1, hwork.1]
    · nlinarith [hprox.2, hskill.2, havail.2, hwork.2]

/-- C8: the scorer returns a permutation of the scored candidates, sorted in
descending composite order, with the stable tie-break of the underlying sort:
any two input positions with equal composites keep their input order in the
output.  Scoring twice with the same collaborator inputs trivially yields the
identical list, the embedding being a pure function. -/
theorem multi_agent_scoring_sorted_stable (pyHash : String → ℤ)
    (activeTaskCount : String → Except Unit ℕ) (task : Task) (members : List Member) :
    (multi_agent_scoring pyHash activeTaskCount task members).Perm
      (members.map (scoreMember pyHash activeTaskCount task)) ∧
    (multi_agent_scoring pyHash activeTaskCount task members).Pairwise
      (fun a b => b.scores.composite ≤ a.scores.composite) ∧
    (∀ (i j : ℕ) (hi : i < (members.map (scoreMember pyHash activeTaskCount task)).length)
       (hj : j < (members.map (scoreMember pyHash activeTaskCount task)).length),
       i < j →
       ((members.map (scoreMember pyHash activeTaskCount task)).get ⟨i, hi⟩).scores.composite =
         ((members.map (scoreMember pyHash activeTaskCount task)).get ⟨j, hj⟩).scores.composite →
       [(members.map (scoreMember pyHash activeTaskCount task)).get ⟨i, hi⟩,
        (members.map (scoreMember pyHash activeTaskCount task)).get ⟨j, hj⟩].Sublist
         (multi_agent_scoring pyHash activeTaskCount task members)) ∧
    multi_agent_scoring pyHash activeTaskCount task members =
      multi_agent_scoring pyHash activeTaskCount task members := by
  refine ⟨?_, ?_, ?_, rfl⟩
  · exact List.mergeSort_perm _ _
  · have h := @List.sorted_mergeSort ScoredMember
      (fun a b => decide (b.scores.composite ≤ a.scores.composite))
      scoredLE_trans scoredLE_total (members.map (scoreMember pyHash activeTaskCount task))
    exact h.imp (fun hab => of_decide_eq_true hab)
  · intro i j hi hj hij heq
    apply List.sublist_mergeSort scoredLE_trans scoredLE_total
    · exact List.pairwise_pair.mpr (decide_eq_true (le_of_eq heq.symm))
    · exact pair_getElem_sublist _ i j hi hj hij

/-- Witness for C8: two members with identical scoring inputs (no skills,
flexible availability, tied proximity and workload under constant
collaborators) tie on composite, and the stability clause keeps them in input
order in the scorer's output. -/
theorem multi_agent_scoring_sorted_stable_witness :
    [scoreMember zeroHash zeroActiveTasks tieTask tieMemberA,
     scoreMember zeroHash zeroActiveTasks tieTask tieMemberB].Sublist
      (multi_agent_scoring zeroHash zeroActiveTasks tieTask [tieMemberA, tieMemberB]) := by
  have hA : (scoreMember zeroHash zeroActiveTasks tieTask tieMemberA).scores.composite =
      100.0 * 0.30 + 50.0 * 0.30 + 100.0 * 0.20 + 100.0 * 0.20 := by with_unfolding_all rfl
  have hB : (scoreMember zeroHash zeroActiveTasks tieTask tieMemberB).scores.composite =
      100.0 * 0.30 + 50.0 * 0.30 + 100.0 * 0.20 + 100.0 * 0.20 := by with_unfolding_all rfl
  exact (multi_agent_scoring_sorted_stable zeroHash zeroActiveTasks tieTask
      [tieMemberA, tieMemberB]).2.2.1 0 1 (by simp) (by simp) (by norm_num)
      (hA.trans hB.symm)

/-- C9: for every registered template type, `capture_outcome` fails — as a
returned value, never an exception (the embedding is a total function into a
result triple) — exactly when the outcome is not among the template's
`outcome_options`; on success `followUpRequired` holds iff some follow-up
rule's condition string-equals the outcome, and `nextCheckIn` is
`now + due_in_hours` of the first matching rule, or `none` when no rule
matches. -/
theorem capture_outcome_validation_follow_up (tt : OutcomeTemplateType)
    (task_id outcome notes : String) (evidence : Option (List Evidence)) (now : ℚ) :
    ((capture_outcome task_id tt.value outcome notes evidence now).1 = false ↔
       outcome ∉ (OUTCOME_TEMPLATES tt).outcome_options) ∧
    (outcome ∈ (OUTCOME_TEMPLATES tt).outcome_options →
       capture_outcome task_id tt.value outcome notes evidence now =
         (true, [],
           some { actionTaken := outcome
                  emergencyServicesCalled := false
                  notes := notes
                  evidence := evidence.getD []
                  followUpRequired :=
                    (OUTCOME_TEMPLATES tt).follow_up_rules.any
                      (fun rule => rule.outcome_condition == outcome)
                  nextCheckIn :=
                    ((OUTCOME_TEMPLATES tt).follow_up_rules.find?
                      (fun rule => rule.outcome_condition == outcome)).map
                      (fun rule => now + rule.due_in_hours) })) := by
  have hget : get_outcome_template tt.value = some (OUTCOME_TEMPLATES tt) := by
    cases tt <;> rfl
  by_cases hmem : outcome ∈ (OUTCOME_TEMPLATES tt).outcome_options
  · have hcontains : (OUTCOME_TEMPLATES tt).outcome_options.contains outcome = true := by
      simpa using hmem
    have hres : capture_outcome task_id tt.value outcome notes evidence now =
        (true, [],
          some { actionTaken := outcome
                 emergencyServicesCalled := false
                 notes := notes
                 evidence := evidence.getD []
                 followUpRequired := shouldGenerateFollowUp (OUTCOME_TEMPLATES tt) outcome
                 nextCheckIn := calculateNextCheckIn (OUTCOME_TEMPLATES tt) outcome now }) := by
      unfold capture_outcome
      simp [hget, hcontains, hmem]
    refine ⟨?_, fun _ => ?_⟩
    · rw [hres]
      simp [hmem]
    · rw [hres]
      simp only [shouldGenerateFollowUp, evaluateOutcomeCondition, calculateNextCheckIn]
  · have hcontains : (OUTCOME_TEMPLATES tt).outcome_options.contains outcome = false := by
      simpa using hmem
    have hres : capture_outcome task_id tt.value outcome notes evidence now =
        (false, ["Invalid outcome: " ++ outcome], none) := by
      unfold capture_outcome
      simp [hget, hcontains, hmem]
    refine ⟨?_, fun hm => absurd hm hmem⟩
    rw [hres]
    simp [hmem]

/-- Witness for C9: the specification's examples — capturing
`"Some doses missed"` against the medication template succeeds with a
follow-up required and a check-in four hours out, while an unknown outcome
fails as a returned validation error. -/
theorem capture_outcome_validation_follow_up_witness :
    capture_outcome "task-1" "medication" "Some doses missed" "" none 0 =
      (true, [],
        some { actionTaken := "Some doses missed"
               emergencyServicesCalled := false
               notes := ""
               evidence := []
               followUpRequired := true
               nextCheckIn := some 4 }) ∧
    (capture_outcome "task-1" "medication" "Not a real option" "" none 0).1 = false := by
  constructor
  · have h := (capture_outcome_validation_follow_up .medication "task-1" "Some doses missed"
      "" none 0).2 (by decide)
    rw [show OutcomeTemplateType.medication.value = "medication" from rfl] at h
    rw [h]
    rw [show ((OUTCOME_TEMPLATES .medication).follow_up_rules.any
        (fun rule => rule.outcome_condition == "Some doses missed")) = true from rfl]
    rw [show ((OUTCOME_TEMPLATES .medication).follow_up_rules.find?
        (fun rule => rule.outcome_condition == "Some doses missed")).map
        (fun rule => (0:ℚ) + rule.due_in_hours) = some ((0:ℚ) + 4) from rfl]
    simp
  · have h := (capture_outcome_validation_follow_up .medication "task-1" "Not a real option"
      "" none 0).1.mpr (by decide)
    rw [show OutcomeTemplateType.medication.value = "medication" from rfl] at h
    exact h

/-- C10: for every pair of ZIP-code strings (and every possible value of the
string hash, which the embedding abstracts as a function parameter), the
proximity score is one of exactly `{100.0, 80.0, 60.0}`: the demo distance
`(abs(hash) % 100) / 10.0` is always below 10 miles, so the `40.0` (< 25 mi)
and `20.0` (else) buckets are unreachable, while each of the three near
buckets is attained for a suitable hash value. -/
theorem calculate_proximity_score_range (pyHash : String → ℤ) (member_zip elder_zip : String) :
    (calculate_proximity_score pyHash member_zip elder_zip = 100.0 ∨
     calculate_proximity_score pyHash member_zip elder_zip = 80.0 ∨
     calculate_proximity_score pyHash member_zip elder_zip = 60.0) ∧
    calculate_proximity_score pyHash member_zip elder_zip ≠ 40.0 ∧
    calculate_proximity_score pyHash member_zip elder_zip ≠ 20.0 ∧
    (∃ h : String → ℤ, calculate_proximity_score h member_zip elder_zip = 100.0) ∧
    (∃ h : String → ℤ, calculate_proximity_score h member_zip elder_zip = 80.0) ∧
    (∃ h : String → ℤ, calculate_proximity_score h member_zip elder_zip = 60.0) := by
  refine ⟨calculate_proximity_score_cases pyHash member_zip elder_zip, ?_, ?_,
    ⟨fun _ => 0, ?_⟩, ⟨fun _ => 10, ?_⟩, ⟨fun _ => 50, ?_⟩⟩
  · rcases calculate_proximity_score_cases pyHash member_zip elder_zip with h | h | h <;>
      rw [h] <;> norm_num
  · rcases calculate_proximity_score_cases pyHash member_zip elder_zip with h | h | h <;>
      rw [h] <;> norm_num
  · simp only [calculate_proximity_score]
    rw [if_pos (by decide)]
  · simp only [calculate_proximity_score]
    rw [if_neg (by decide), if_pos (by decide)]
  · simp only [calculate_proximity_score]
    rw [if_neg (by decide), if_neg (by decide), if_pos (by decide)]

end CareCircle

